import Mathlib

/-!
Verification of the matrix-authentication-service core against its
specification: compat token rotation, upstream OAuth2 linking state machine,
and session store operations, shallowly embedded from the Rust source.
-/

set_option autoImplicit false

namespace Mas

/-! Token generator (`mas_data_model` token types). -/

/-- Token types issued by the service, as in `mas_data_model::TokenType`. -/
inductive TokenType
  | accessToken
  | refreshToken
  | compatAccessToken
  | compatRefreshToken
deriving DecidableEq, Repr

/-- Error for a token string whose type tag is unrecognised. -/
inductive TokenFormatError
  | invalidFormat
deriving DecidableEq, Repr

/-- Modelled from the spec: `TokenType::check` of `mas_data_model` (the crate is
not under `src/`). Per spec section 4.1, `check(string)` parses the type-specific
leading tag of a token string and fails with an invalid-format error if it is
unrecognised; this is pure and performs no I/O. The four-character tags are the
internal contract between the generator and `check`. -/
def TokenType.check (s : String) : Except TokenFormatError TokenType :=
  if s.take 4 = "mat_" then .ok .accessToken
  else if s.take 4 = "mar_" then .ok .refreshToken
  else if s.take 4 = "mct_" then .ok .compatAccessToken
  else if s.take 4 = "mcr_" then .ok .compatRefreshToken
  else .error .invalidFormat

/-! Compat token data model (spec section 3) and its store operations.
The rows mirror the `compat_sessions`, `compat_access_tokens` and
`compat_refresh_tokens` tables.  Timestamps are abstract naturals; a nullable
column is an `Option`. -/

/-- A compat session row: a device session of a legacy Matrix client. -/
structure CompatSessionRow where
  id : Nat
  user_id : Nat
  created_at : Nat
  finished_at : Option Nat
deriving DecidableEq, Repr

/-- A compat access token row; `expires_at` is null for tokens with no expiry. -/
structure CompatAccessTokenRow where
  id : Nat
  session_id : Nat
  token : String
  created_at : Nat
  expires_at : Option Nat
deriving DecidableEq, Repr

/-- A compat refresh token row; single use, `consumed_at` marks consumption. -/
structure CompatRefreshTokenRow where
  id : Nat
  session_id : Nat
  access_token_id : Nat
  token : String
  created_at : Nat
  consumed_at : Option Nat
deriving DecidableEq, Repr

/-- The compat tables of the database. -/
structure CompatDb where
  sessions : List CompatSessionRow
  accessTokens : List CompatAccessTokenRow
  refreshTokens : List CompatRefreshTokenRow
deriving DecidableEq, Repr

/-- A refresh token is valid while unconsumed (spec section 3). -/
def refreshTokenValid (r : CompatRefreshTokenRow) : Bool :=
  r.consumed_at.isNone

/-- An access token is valid at `now` when it has no expiry or has not yet
reached it. -/
def accessTokenValid (now : Nat) (a : CompatAccessTokenRow) : Bool :=
  match a.expires_at with
  | none => true
  | some e => now < e

/-- The valid refresh tokens bound to compat session `sid`. -/
def validRefreshTokensOf (db : CompatDb) (sid : Nat) : List CompatRefreshTokenRow :=
  db.refreshTokens.filter (fun r => r.session_id == sid && refreshTokenValid r)

/-- The valid access tokens bound to compat session `sid` at time `now`. -/
def validAccessTokensOf (db : CompatDb) (sid : Nat) (now : Nat) : List CompatAccessTokenRow :=
  db.accessTokens.filter (fun a => a.session_id == sid && accessTokenValid now a)

/-- Modelled from the spec: `lookup_active_compat_refresh_token` of
`mas_storage::compat` (the module is not under `src/`).  Per spec section 4.5
step 2, it looks up the active (unconsumed) refresh token by its string, its
paired access token and the owning compat session; any failure collapses to
`None`. -/
def lookup_active_compat_refresh_token (db : CompatDb) (token : String) :
    Option (CompatRefreshTokenRow × CompatAccessTokenRow × CompatSessionRow) :=
  match db.refreshTokens.find? (fun r => r.token == token && r.consumed_at.isNone) with
  | none => none
  | some rt =>
    match db.accessTokens.find? (fun a => a.id == rt.access_token_id) with
    | none => none
    | some atk =>
      match db.sessions.find? (fun s => s.id == rt.session_id) with
      | none => none
      | some sess => some (rt, atk, sess)

/-- Modelled from the spec: `add_compat_access_token` of `mas_storage::compat`
(not under `src/`).  Inserts a new access token row for the session, with
`expires_at` set to `created_at` plus the given lifetime when one is supplied. -/
def add_compat_access_token (db : CompatDb) (now : Nat) (sess : CompatSessionRow)
    (tokenStr : String) (expires_in : Option Nat) (newId : Nat) :
    CompatDb × CompatAccessTokenRow :=
  let row : CompatAccessTokenRow :=
    { id := newId, session_id := sess.id, token := tokenStr,
      created_at := now, expires_at := expires_in.map (fun d => now + d) }
  ({ db with accessTokens := db.accessTokens ++ [row] }, row)

/-- Modelled from the spec: `add_compat_refresh_token` of `mas_storage::compat`
(not under `src/`).  Inserts a new unconsumed refresh token row paired with the
given access token. -/
def add_compat_refresh_token (db : CompatDb) (now : Nat) (sess : CompatSessionRow)
    (accessToken : CompatAccessTokenRow) (tokenStr : String) (newId : Nat) :
    CompatDb × CompatRefreshTokenRow :=
  let row : CompatRefreshTokenRow :=
    { id := newId, session_id := sess.id, access_token_id := accessToken.id,
      token := tokenStr, created_at := now, consumed_at := none }
  ({ db with refreshTokens := db.refreshTokens ++ [row] }, row)

/-- Modelled from the spec: `consume_compat_refresh_token` of
`mas_storage::compat` (not under `src/`).  Stamps `consumed_at` on the given
refresh token row; consumption is irreversible. -/
def consume_compat_refresh_token (db : CompatDb) (now : Nat)
    (rt : CompatRefreshTokenRow) : CompatDb :=
  { db with refreshTokens := db.refreshTokens.map fun r =>
      if r.id == rt.id then { r with consumed_at := some now } else r }

/-- Modelled from the spec: `expire_compat_access_token` of `mas_storage::compat`
(not under `src/`).  Marks the given access token as expired by setting its
expiry to the current instant. -/
def expire_compat_access_token (db : CompatDb) (now : Nat)
    (atk : CompatAccessTokenRow) : CompatDb :=
  { db with accessTokens := db.accessTokens.map fun a =>
      if a.id == atk.id then { a with expires_at := some now } else a }

/-! The compat refresh endpoint handler, embedded from
`crates/handlers/src/compat/refresh.rs`. -/

/-- The route errors of the compat refresh endpoint (`refresh.rs`). -/
inductive CompatRouteError
  | internal
  | invalidToken
deriving DecidableEq, Repr

/-- The success body of the refresh endpoint: the new token pair and the new
access token's remaining lifetime in milliseconds. -/
structure RefreshResponseBody where
  access_token : String
  refresh_token : String
  expires_in_ms : Nat
deriving DecidableEq, Repr

/-- A structured Matrix error with machine-readable code and HTTP status, as in
`MatrixError` of the handlers crate. -/
structure MatrixError where
  errcode : String
  error : String
  status : Nat
deriving DecidableEq, Repr

/-- The `IntoResponse` mapping of `RouteError` in `refresh.rs` lines 45-61:
internal failures become `M_UNKNOWN` with status 500, invalid tokens become
`M_UNKNOWN_TOKEN` with status 401. -/
def compatRouteErrorResponse : CompatRouteError → MatrixError
  | .internal => { errcode := "M_UNKNOWN", error := "Internal error", status := 500 }
  | .invalidToken => { errcode := "M_UNKNOWN_TOKEN", error := "Invalid refresh token", status := 401 }

/-- The outcome of one call to the refresh endpoint: the handler result, the
database as visible after the call (the transaction is rolled back on any
error), and whether any table of the store was touched. -/
structure RefreshOutcome where
  result : Except CompatRouteError RefreshResponseBody
  db : CompatDb
  dbAccessed : Bool
deriving Repr

/-- The fixed five-minute expiry given to the freshly minted access token
(`Duration::minutes(5)` in `refresh.rs`), in milliseconds. -/
def accessTokenExpiryMs : Nat := 5 * 60 * 1000

/-- The compat refresh endpoint handler `post` of
`crates/handlers/src/compat/refresh.rs` lines 81-132.  All state changes run in
one transaction committed at the end; an early return drops the transaction and
rolls every write back, which the embedding reflects by returning the original
database on every error.  `ioFail` models the possibility of each individual
database call failing at the I/O level (an `sqlx::Error`, mapped to the
`Internal` route error): index 0 is the lookup, 1 and 2 the two inserts, 3 and 4
the two updates, 5 the final commit.  The freshly generated random token
strings and row ids are passed as arguments. -/
def compatRefreshPost (db : CompatDb) (now : Nat) (input : String)
    (ioFail : Nat → Bool) (newAccessStr newRefreshStr : String)
    (newAccessId newRefreshId : Nat) : RefreshOutcome :=
  match TokenType.check input with
  | .error _ => ⟨.error .invalidToken, db, false⟩
  | .ok t =>
    if t ≠ TokenType.compatRefreshToken then ⟨.error .invalidToken, db, false⟩
    else if ioFail 0 then ⟨.error .internal, db, true⟩
    else
      match lookup_active_compat_refresh_token db input with
      | none => ⟨.error .invalidToken, db, true⟩
      | some (rt, atk, sess) =>
        if ioFail 1 then ⟨.error .internal, db, true⟩
        else
          let p1 := add_compat_access_token db now sess newAccessStr
            (some accessTokenExpiryMs) newAccessId
          if ioFail 2 then ⟨.error .internal, db, true⟩
          else
            let p2 := add_compat_refresh_token p1.1 now sess p1.2 newRefreshStr newRefreshId
            if ioFail 3 then ⟨.error .internal, db, true⟩
            else
              let db3 := consume_compat_refresh_token p2.1 now rt
              if ioFail 4 then ⟨.error .internal, db, true⟩
              else
                let db4 := expire_compat_access_token db3 now atk
                if ioFail 5 then ⟨.error .internal, db, true⟩
                else ⟨.ok ⟨p1.2.token, p2.2.token, accessTokenExpiryMs⟩, db4, true⟩

/-- Helper: what a successful active-refresh-token lookup guarantees about the
returned rows. -/
theorem lookup_active_mem {db : CompatDb} {input : String}
    {rt : CompatRefreshTokenRow} {atk : CompatAccessTokenRow} {sess : CompatSessionRow}
    (hl : lookup_active_compat_refresh_token db input = some (rt, atk, sess)) :
    rt ∈ db.refreshTokens ∧ atk ∈ db.accessTokens ∧ rt.consumed_at = none := by
  unfold lookup_active_compat_refresh_token at hl
  split at hl
  · exact Option.noConfusion hl
  next rt1 hf1 =>
    split at hl
    · exact Option.noConfusion hl
    next atk1 hf2 =>
      split at hl
      · exact Option.noConfusion hl
      next sess1 hf3 =>
        injection hl with hp
        injection hp with h1 hp2
        injection hp2 with h2 h3
        subst h1; subst h2; subst h3
        refine ⟨List.mem_of_find?_eq_some hf1, List.mem_of_find?_eq_some hf2, ?_⟩
        have hv := List.find?_some hf1
        simp only [Bool.and_eq_true, Option.isNone_iff_eq_none] at hv
        exact hv.2

set_option maxHeartbeats 2000000 in
/-- C1: compat token rotation is atomic.  Under the rotation invariant (the
presented pair is the only valid pair of its compat session, and the freshly
generated row ids are fresh), a successful refresh call leaves exactly one
valid refresh token and exactly one valid access token for that session, both
the newly minted ones, with the old pair unconditionally invalid; and any
failure of any step before the commit leaves the token state completely
unchanged. -/
theorem compat_refresh_atomic_rotation
    (db : CompatDb) (now : Nat) (input : String) (ioFail : Nat → Bool)
    (nas nrs : String) (naid nrid : Nat)
    (rt : CompatRefreshTokenRow) (atk : CompatAccessTokenRow) (sess : CompatSessionRow)
    (hl : lookup_active_compat_refresh_token db input = some (rt, atk, sess))
    (hrv : ∀ r ∈ db.refreshTokens, r.session_id = sess.id → r.consumed_at = none → r.id = rt.id)
    (hav : ∀ a ∈ db.accessTokens, a.session_id = sess.id → accessTokenValid now a = true →
      a.id = atk.id)
    (hfr : ∀ r ∈ db.refreshTokens, r.id ≠ nrid)
    (hfa : ∀ a ∈ db.accessTokens, a.id ≠ naid) :
    (∀ e, (compatRefreshPost db now input ioFail nas nrs naid nrid).result = .error e →
      (compatRefreshPost db now input ioFail nas nrs naid nrid).db = db) ∧
    (∀ body, (compatRefreshPost db now input ioFail nas nrs naid nrid).result = .ok body →
      (validRefreshTokensOf (compatRefreshPost db now input ioFail nas nrs naid nrid).db
        sess.id).map (fun r => r.id) = [nrid] ∧
      (validAccessTokensOf (compatRefreshPost db now input ioFail nas nrs naid nrid).db
        sess.id now).map (fun a => a.id) = [naid] ∧
      (∀ r ∈ (compatRefreshPost db now input ioFail nas nrs naid nrid).db.refreshTokens,
        r.id = rt.id → r.consumed_at ≠ none) ∧
      (∀ a ∈ (compatRefreshPost db now input ioFail nas nrs naid nrid).db.accessTokens,
        a.id = atk.id → accessTokenValid now a = false)) := by
  obtain ⟨hrtmem, hatkmem, hrtnone⟩ := lookup_active_mem hl
  have hrtid : rt.id ≠ nrid := hfr rt hrtmem
  have hatkid : atk.id ≠ naid := hfa atk hatkmem
  unfold compatRefreshPost
  split
  · exact ⟨fun _ _ => rfl, fun body hb => Except.noConfusion hb⟩
  · split
    · exact ⟨fun _ _ => rfl, fun body hb => Except.noConfusion hb⟩
    · split
      · exact ⟨fun _ _ => rfl, fun body hb => Except.noConfusion hb⟩
      · split
        · next heq => rw [hl] at heq; exact Option.noConfusion heq
        · next rt1 atk1 sess1 heq =>
            rw [hl] at heq
            injection heq with hp
            injection hp with h1 hp2
            injection hp2 with h2 h3
            subst h1; subst h2; subst h3
            split
            · exact ⟨fun _ _ => rfl, fun body hb => Except.noConfusion hb⟩
            · split
              · exact ⟨fun _ _ => rfl, fun body hb => Except.noConfusion hb⟩
              · split
                · exact ⟨fun _ _ => rfl, fun body hb => Except.noConfusion hb⟩
                · split
                  · exact ⟨fun _ _ => rfl, fun body hb => Except.noConfusion hb⟩
                  · split
                    · exact ⟨fun _ _ => rfl, fun body hb => Except.noConfusion hb⟩
                    · -- committed success branch
                      refine ⟨fun e he => Except.noConfusion he, fun body _ => ?_⟩
                      simp only [add_compat_access_token, add_compat_refresh_token,
                        consume_compat_refresh_token, expire_compat_access_token,
                        validRefreshTokensOf, validAccessTokensOf]
                      have hnrne : (nrid == rt.id) = false :=
                        beq_eq_false_iff_ne.mpr (Ne.symm hrtid)
                      have hnane : (naid == atk.id) = false :=
                        beq_eq_false_iff_ne.mpr (Ne.symm hatkid)
                      have hrnil : ∀ (o : CompatRefreshTokenRow), o ∈ db.refreshTokens →
                          ¬((fun r => r.session_id == sess.id && refreshTokenValid r)
                            (if o.id == rt.id then { o with consumed_at := some now } else o)
                              = true) := by
                        intro o ho
                        by_cases hoid : (o.id == rt.id) = true
                        · simp [hoid, refreshTokenValid]
                        · simp only [hoid]
                          simp only [Bool.false_eq_true, if_false, Bool.and_eq_true,
                            beq_iff_eq, refreshTokenValid, Option.isNone_iff_eq_none, not_and]
                          intro hos hvl
                          exact absurd (hrv o ho hos hvl) (by simpa using hoid)
                      have hanil : ∀ (o : CompatAccessTokenRow), o ∈ db.accessTokens →
                          ¬((fun a => a.session_id == sess.id && accessTokenValid now a)
                            (if o.id == atk.id then { o with expires_at := some now } else o)
                              = true) := by
                        intro o ho
                        by_cases hoid : (o.id == atk.id) = true
                        · simp [hoid, accessTokenValid]
                        · simp only [hoid]
                          simp only [Bool.false_eq_true, if_false, Bool.and_eq_true,
                            beq_iff_eq, not_and]
                          intro hos hvl
                          exact absurd (hav o ho hos hvl) (by simpa using hoid)
                      refine ⟨?_, ?_, ?_, ?_⟩
                      · rw [List.map_append, List.filter_append]
                        rw [List.filter_eq_nil_iff.mpr (by
                          intro r hr
                          obtain ⟨o, ho, rfl⟩ := List.mem_map.mp hr
                          exact hrnil o ho)]
                        simp [refreshTokenValid, Ne.symm hrtid]
                      · rw [List.map_append, List.filter_append]
                        rw [List.filter_eq_nil_iff.mpr (by
                          intro a ha
                          obtain ⟨o, ho, rfl⟩ := List.mem_map.mp ha
                          exact hanil o ho)]
                        simp [accessTokenValid, Ne.symm hatkid, accessTokenExpiryMs]
                      · intro r hr hid
                        obtain ⟨o, ho, rfl⟩ := List.mem_map.mp hr
                        by_cases hoid : (o.id == rt.id) = true
                        · simp [hoid]
                        · simp only [hoid, Bool.false_eq_true, if_false] at hid ⊢
                          exact absurd (beq_iff_eq.mpr hid) (by simpa using hoid)
                      · intro a ha hid
                        obtain ⟨o, ho, rfl⟩ := List.mem_map.mp ha
                        by_cases hoid : (o.id == atk.id) = true
                        · simp [hoid, accessTokenValid]
                        · simp only [hoid, Bool.false_eq_true, if_false] at hid ⊢
                          exact absurd (beq_iff_eq.mpr hid) (by simpa using hoid)

/-- Witness for C1: a one-session database holding exactly the old pair, on
which the refresh call succeeds and rotates the pair. -/
theorem compat_refresh_atomic_rotation_witness :
    (∀ e, (compatRefreshPost
        ⟨[⟨10, 1, 0, none⟩], [⟨20, 10, "mct_old", 0, none⟩], [⟨30, 10, 20, "mcr_old", 0, none⟩]⟩
        100 "mcr_old" (fun _ => false) "mct_new" "mcr_new" 21 31).result = .error e →
      (compatRefreshPost
        ⟨[⟨10, 1, 0, none⟩], [⟨20, 10, "mct_old", 0, none⟩], [⟨30, 10, 20, "mcr_old", 0, none⟩]⟩
        100 "mcr_old" (fun _ => false) "mct_new" "mcr_new" 21 31).db =
        ⟨[⟨10, 1, 0, none⟩], [⟨20, 10, "mct_old", 0, none⟩], [⟨30, 10, 20, "mcr_old", 0, none⟩]⟩) ∧
    (∀ body, (compatRefreshPost
        ⟨[⟨10, 1, 0, none⟩], [⟨20, 10, "mct_old", 0, none⟩], [⟨30, 10, 20, "mcr_old", 0, none⟩]⟩
        100 "mcr_old" (fun _ => false) "mct_new" "mcr_new" 21 31).result = .ok body →
      (validRefreshTokensOf (compatRefreshPost
        ⟨[⟨10, 1, 0, none⟩], [⟨20, 10, "mct_old", 0, none⟩], [⟨30, 10, 20, "mcr_old", 0, none⟩]⟩
        100 "mcr_old" (fun _ => false) "mct_new" "mcr_new" 21 31).db 10).map (fun r => r.id) =
        [31] ∧
      (validAccessTokensOf (compatRefreshPost
        ⟨[⟨10, 1, 0, none⟩], [⟨20, 10, "mct_old", 0, none⟩], [⟨30, 10, 20, "mcr_old", 0, none⟩]⟩
        100 "mcr_old" (fun _ => false) "mct_new" "mcr_new" 21 31).db 10 100).map
        (fun a => a.id) = [21] ∧
      (∀ r ∈ (compatRefreshPost
        ⟨[⟨10, 1, 0, none⟩], [⟨20, 10, "mct_old", 0, none⟩], [⟨30, 10, 20, "mcr_old", 0, none⟩]⟩
        100 "mcr_old" (fun _ => false) "mct_new" "mcr_new" 21 31).db.refreshTokens,
        r.id = 30 → r.consumed_at ≠ none) ∧
      (∀ a ∈ (compatRefreshPost
        ⟨[⟨10, 1, 0, none⟩], [⟨20, 10, "mct_old", 0, none⟩], [⟨30, 10, 20, "mcr_old", 0, none⟩]⟩
        100 "mcr_old" (fun _ => false) "mct_new" "mcr_new" 21 31).db.accessTokens,
        a.id = 20 → accessTokenValid 100 a = false)) :=
  compat_refresh_atomic_rotation
    ⟨[⟨10, 1, 0, none⟩], [⟨20, 10, "mct_old", 0, none⟩], [⟨30, 10, 20, "mcr_old", 0, none⟩]⟩
    100 "mcr_old" (fun _ => false) "mct_new" "mcr_new" 21 31
    ⟨30, 10, 20, "mcr_old", 0, none⟩ ⟨20, 10, "mct_old", 0, none⟩ ⟨10, 1, 0, none⟩
    (by rfl) (by decide) (by decide) (by decide) (by decide)

/-- C6: a compat refresh request whose token string is malformed or carries a
non-`CompatRefreshToken` tag is rejected with the machine-readable code
`M_UNKNOWN_TOKEN` before any table of the store is touched, the database is
left unchanged, and the invalid-token response of this endpoint carries HTTP
status 401. -/
theorem compat_refresh_invalid_format_rejected_without_db_access
    (db : CompatDb) (now : Nat) (input : String) (ioFail : Nat → Bool)
    (nas nrs : String) (naid nrid : Nat)
    (h : TokenType.check input ≠ .ok TokenType.compatRefreshToken) :
    compatRefreshPost db now input ioFail nas nrs naid nrid =
      ⟨.error .invalidToken, db, false⟩ ∧
    compatRouteErrorResponse .invalidToken =
      { errcode := "M_UNKNOWN_TOKEN", error := "Invalid refresh token", status := 401 } := by
  refine ⟨?_, rfl⟩
  unfold compatRefreshPost
  cases hc : TokenType.check input with
  | error e => rfl
  | ok t =>
    have ht : t ≠ TokenType.compatRefreshToken := by
      intro h'
      exact h (h' ▸ hc)
    simp [ht]

/-- Witness for C6 at the concrete malformed input `"mat_oops"` (the tag of a
plain OAuth2 access token, not a compat refresh token). -/
theorem compat_refresh_invalid_format_rejected_without_db_access_witness :
    compatRefreshPost ⟨[], [], []⟩ 0 "mat_oops" (fun _ => false) "a" "r" 1 2 =
      ⟨.error .invalidToken, ⟨[], [], []⟩, false⟩ ∧
    compatRouteErrorResponse .invalidToken =
      { errcode := "M_UNKNOWN_TOKEN", error := "Invalid refresh token", status := 401 } :=
  compat_refresh_invalid_format_rejected_without_db_access ⟨[], [], []⟩ 0 "mat_oops"
    (fun _ => false) "a" "r" 1 2 (by
      intro hcontra
      have hev : TokenType.check "mat_oops" = .ok TokenType.accessToken := by rfl
      rw [hev] at hcontra
      exact TokenType.noConfusion (Except.ok.inj hcontra))

/-! Upstream OAuth2 data model, embedded from `mas_data_model` via the row
shapes of `crates/storage/src/upstream_oauth2/session.rs` and
`crates/storage/src/user/mod.rs`. -/

/-- The JOSE signature algorithms of `crates/iana/src/jose.rs` that matter
here (the full registry has more entries, all handled uniformly). -/
inductive JsonWebSignatureAlg
  | hs256
  | rs256
  | es256
  | ps256
deriving DecidableEq, Repr

/-- An upstream OAuth2 provider, as reconstructed by `lookup_session` from the
`upstream_oauth_providers` columns (session.rs lines 88-119).  Static
per-deployment configuration, immutable after creation. -/
structure UpstreamOAuthProvider where
  id : Nat
  issuer : String
  scope : String
  client_id : String
  encrypted_client_secret : Option String
  token_endpoint_auth_method : String
  token_endpoint_signing_alg : Option JsonWebSignatureAlg
  created_at : Nat
deriving DecidableEq, Repr

/-- An upstream OAuth2 authorization session row
(`upstream_oauth_authorization_sessions`). -/
structure UpstreamOAuthAuthorizationSession where
  id : Nat
  provider_id : Nat
  link_id : Option Nat
  state : String
  code_challenge_verifier : Option String
  nonce : String
  id_token : Option String
  created_at : Nat
  completed_at : Option Nat
  consumed_at : Option Nat
deriving DecidableEq, Repr

/-- Modelled from the spec: `UpstreamOAuthAuthorizationSession::completed()` of
`mas_data_model` (not under `src/`); the Completed state is derived from a
non-null `completed_at` (spec section 3). -/
def UpstreamOAuthAuthorizationSession.completed
    (s : UpstreamOAuthAuthorizationSession) : Bool :=
  s.completed_at.isSome

/-- Modelled from the spec: `UpstreamOAuthAuthorizationSession::consumed()` of
`mas_data_model` (not under `src/`); the Consumed state is derived from a
non-null `consumed_at` (spec section 3). -/
def UpstreamOAuthAuthorizationSession.consumed
    (s : UpstreamOAuthAuthorizationSession) : Bool :=
  s.consumed_at.isSome

/-- An upstream OAuth2 link row: a durable association between an upstream
subject and a provider, optionally bound to a local user. -/
structure UpstreamOAuthLink where
  id : Nat
  provider_id : Nat
  user_id : Option Nat
  subject : String
  created_at : Nat
deriving DecidableEq, Repr

/-- A local user row (`users`). -/
structure UserRow where
  id : Nat
  username : String
deriving DecidableEq, Repr

/-- A browser session row (`user_sessions`); `finished_at` non-null means the
session was ended. -/
structure UserSessionRow where
  id : Nat
  user_id : Nat
  created_at : Nat
  finished_at : Option Nat
deriving DecidableEq, Repr

/-- An authentication event row (`user_session_authentications`), recording an
upstream-link-backed or password-backed authentication of a browser session. -/
structure AuthenticationRow where
  id : Nat
  session_id : Nat
  created_at : Nat
  upstream_link_id : Option Nat
deriving DecidableEq, Repr

/-- An in-memory `BrowserSession` value as used by the handlers: the session id
together with its owning user. -/
structure BrowserSession where
  id : Nat
  user : UserRow
deriving DecidableEq, Repr

/-- The tables of the database touched by the upstream linking flows. -/
structure UpstreamDb where
  providers : List UpstreamOAuthProvider
  sessions : List UpstreamOAuthAuthorizationSession
  links : List UpstreamOAuthLink
  users : List UserRow
  userSessions : List UserSessionRow
  authentications : List AuthenticationRow
deriving DecidableEq, Repr

/-- The error classes of `mas_storage::DatabaseError` that the claims need:
`inconsistency` is the unexpected-affected-row-count error raised by
`ensure_affected_rows`, `invalidOperation` a precondition violation. -/
inductive DatabaseErrorKind
  | inconsistency
  | invalidOperation
  | conflict
deriving DecidableEq, Repr

/-! Store operations over upstream authorization sessions, embedded from
`crates/storage/src/upstream_oauth2/session.rs`. -/

/-- `lookup_session` (session.rs lines 50-135): joins the session row with its
provider row; absence of either yields `none`, never an error. -/
def lookup_session (db : UpstreamDb) (sid : Nat) :
    Option (UpstreamOAuthProvider × UpstreamOAuthAuthorizationSession) :=
  match db.sessions.find? (fun s => s.id == sid) with
  | none => none
  | some s =>
    match db.providers.find? (fun p => p.id == s.provider_id) with
    | none => none
    | some p => some (p, s)

/-- `add_session` (session.rs lines 148-200): inserts a new Pending session row
with `completed_at`, `consumed_at`, `id_token` and `link_id` all null. -/
def add_session (db : UpstreamDb) (now : Nat) (provider : UpstreamOAuthProvider)
    (state : String) (code_challenge_verifier : Option String) (nonce : String)
    (sid : Nat) : UpstreamDb × UpstreamOAuthAuthorizationSession :=
  let row : UpstreamOAuthAuthorizationSession :=
    { id := sid, provider_id := provider.id, link_id := none, state := state,
      code_challenge_verifier := code_challenge_verifier, nonce := nonce,
      id_token := none, created_at := now, completed_at := none, consumed_at := none }
  ({ db with sessions := db.sessions ++ [row] }, row)

/-- `complete_session` (session.rs lines 211-239): one unconditional `UPDATE`
setting `upstream_oauth_link_id`, `completed_at` and `id_token` on the row; no
check of the current state is performed.  The returned in-memory session gets
`completed_at` and `id_token` updated, exactly as in the source (which leaves
the in-memory `link_id` untouched). -/
def complete_session (db : UpstreamDb) (now : Nat)
    (session : UpstreamOAuthAuthorizationSession) (link : UpstreamOAuthLink)
    (id_token : Option String) :
    UpstreamDb × UpstreamOAuthAuthorizationSession :=
  ({ db with sessions := db.sessions.map fun r =>
      if r.id == session.id then
        { r with link_id := some link.id, completed_at := some now, id_token := id_token }
      else r },
   { session with completed_at := some now, id_token := id_token })

/-- `consume_session` (session.rs lines 249-270): one unconditional `UPDATE`
setting `consumed_at` on the row. -/
def consume_session (db : UpstreamDb) (now : Nat)
    (session : UpstreamOAuthAuthorizationSession) :
    UpstreamDb × UpstreamOAuthAuthorizationSession :=
  ({ db with sessions := db.sessions.map fun r =>
      if r.id == session.id then { r with consumed_at := some now } else r },
   { session with consumed_at := some now })

/-- `lookup_session_on_link` (session.rs lines 294-338): finds the session by
its id, additionally requiring that it carries the given link. -/
def lookup_session_on_link (db : UpstreamDb) (link : UpstreamOAuthLink)
    (sid : Nat) : Option UpstreamOAuthAuthorizationSession :=
  db.sessions.find? (fun s => s.id == sid && s.link_id == some link.id)

/-! Store operations over links, users and browser sessions.  The link module
of `mas_storage::upstream_oauth2` is not under `src/`, so those are modelled
from spec section 4.2; `add_user`, `start_session`, `end_session` are embedded
from `crates/storage/src/user/mod.rs`. -/

/-- Modelled from the spec: `lookup_link` of `mas_storage::upstream_oauth2`
(not under `src/`): fetches a link row by id, `none` on absence. -/
def lookup_link (db : UpstreamDb) (lid : Nat) : Option UpstreamOAuthLink :=
  db.links.find? (fun l => l.id == lid)

/-- Modelled from the spec: `lookup_link_by_subject` (spec section 4.2): finds
the link for a (provider, subject) pair, `none` on absence. -/
def lookup_link_by_subject (db : UpstreamDb) (provider : UpstreamOAuthProvider)
    (subject : String) : Option UpstreamOAuthLink :=
  db.links.find? (fun l => l.provider_id == provider.id && l.subject == subject)

/-- Modelled from the spec: `add_link` (spec section 4.2): inserts a new,
unlinked link row for the (provider, subject) pair with no existence check. -/
def add_link (db : UpstreamDb) (now : Nat) (provider : UpstreamOAuthProvider)
    (subject : String) (lid : Nat) : UpstreamDb × UpstreamOAuthLink :=
  let row : UpstreamOAuthLink :=
    { id := lid, provider_id := provider.id, user_id := none,
      subject := subject, created_at := now }
  ({ db with links := db.links ++ [row] }, row)

/-- Modelled from the spec: `associate_link_to_user` (spec section 4.2): binds
a previously-unlinked link to a user; fails if already bound. -/
def associate_link_to_user (db : UpstreamDb) (link : UpstreamOAuthLink)
    (user : UserRow) : Except DatabaseErrorKind UpstreamDb :=
  if link.user_id.isSome then .error .invalidOperation
  else .ok { db with links := db.links.map fun l =>
      if l.id == link.id then { l with user_id := some user.id } else l }

/-- `add_user` (user/mod.rs lines 290-318): inserts a new user row. -/
def add_user (db : UpstreamDb) (username : String) (uid : Nat) :
    UpstreamDb × UserRow :=
  let row : UserRow := { id := uid, username := username }
  ({ db with users := db.users ++ [row] }, row)

/-- `start_session` (user/mod.rs lines 227-257): inserts a new browser session
row with `finished_at` null and no authentication yet. -/
def start_session (db : UpstreamDb) (now : Nat) (user : UserRow) (bsid : Nat) :
    UpstreamDb × BrowserSession :=
  let row : UserSessionRow :=
    { id := bsid, user_id := user.id, created_at := now, finished_at := none }
  ({ db with userSessions := db.userSessions ++ [row] }, ⟨bsid, user⟩)

/-- `lookup_active_session` (user/mod.rs lines 122-160): finds the unfinished
browser session row and joins its user; `none` on absence. -/
def lookup_active_session (db : UpstreamDb) (bsid : Nat) : Option BrowserSession :=
  match db.userSessions.find? (fun s => s.id == bsid && s.finished_at.isNone) with
  | none => none
  | some s =>
    match db.users.find? (fun u => u.id == s.user_id) with
    | none => none
    | some u => some ⟨s.id, u⟩

/-- `lookup_user` (user/mod.rs lines 417-469): fetches a user row by id; unlike
the optional lookups it errors on absence (`fetch_one`). -/
def lookup_user (db : UpstreamDb) (uid : Nat) : Except DatabaseErrorKind UserRow :=
  match db.users.find? (fun u => u.id == uid) with
  | none => .error .inconsistency
  | some u => .ok u

/-- Modelled from the spec: `authenticate_session_with_upstream` of
`mas_storage::user::authentication` (not under `src/`): appends an
authentication event referencing the link and makes it the session's last
authentication (spec section 4.2). -/
def authenticate_session_with_upstream (db : UpstreamDb) (now : Nat)
    (session : BrowserSession) (link : UpstreamOAuthLink) (aid : Nat) : UpstreamDb :=
  { db with authentications := db.authentications ++
      [{ id := aid, session_id := session.id, created_at := now,
         upstream_link_id := some link.id }] }

/-- The number of `user_sessions` rows the `end_session` update touches. -/
def endSessionAffectedRows (db : UpstreamDb) (session : BrowserSession) : Nat :=
  (db.userSessions.filter (fun r => r.id == session.id)).length

/-- `end_session` (user/mod.rs lines 325-345): one `UPDATE` stamping
`finished_at` on the row, followed by `DatabaseError::ensure_affected_rows`.
The helper is not under `src/` and is modelled from spec section 4.2: the
operation must check that exactly one row was affected and otherwise signal an
Inconsistency-class error. -/
def end_session (db : UpstreamDb) (now : Nat) (session : BrowserSession) :
    Except DatabaseErrorKind UpstreamDb :=
  let db' := { db with userSessions := db.userSessions.map fun r =>
      if r.id == session.id then { r with finished_at := some now } else r }
  if endSessionAffectedRows db session = 1 then .ok db'
  else .error .inconsistency

/-! The Pending-Session Set cookie.  The cookie module of the handlers crate is
not under `src/`; it is modelled from spec sections 3 and 6: an ordered
collection of per-attempt entries keyed by (provider, state), which gain a
resolved link on completion and are removed on consumption. -/

/-- Modelled from the spec: one entry of the Pending-Session Set cookie.  A
pending entry carries the session id, provider and state; once resolved it
additionally carries the link id. -/
structure UpstreamSessionCookieEntry where
  session_id : Nat
  provider_id : Nat
  state : String
  link_id : Option Nat
deriving DecidableEq, Repr

/-- The Pending-Session Set, carried by the browser in an encrypted cookie. -/
abbrev UpstreamSessionsCookie := List UpstreamSessionCookieEntry

/-- Modelled from the spec: `find_session` of the sessions cookie: the entry
for the (provider, state) pair of an in-flight authorization attempt, yielding
its session id; `none` when the cookie holds no such entry. -/
def cookieFindSession (c : UpstreamSessionsCookie) (pid : Nat) (state : String) :
    Option Nat :=
  (c.find? (fun e => e.provider_id == pid && e.state == state)).map
    (fun e => e.session_id)

/-- Modelled from the spec: `add_link_to_session` of the sessions cookie: marks
the entry of the given session as resolved to the given link. -/
def cookieAddLinkToSession (c : UpstreamSessionsCookie) (sid lid : Nat) :
    UpstreamSessionsCookie :=
  c.map fun e => if e.session_id == sid then { e with link_id := some lid } else e

/-- Modelled from the spec: `lookup_link` of the sessions cookie: the session
id of the resolved entry carrying the given link. -/
def cookieLookupLink (c : UpstreamSessionsCookie) (lid : Nat) : Option Nat :=
  (c.find? (fun e => e.link_id == some lid)).map (fun e => e.session_id)

/-- Modelled from the spec: `consume_link` of the sessions cookie: entries are
removed once consumed. -/
def cookieConsumeLink (c : UpstreamSessionsCookie) (lid : Nat) :
    UpstreamSessionsCookie :=
  c.filter fun e => !(e.link_id == some lid)

/-! The OIDC client authorization-code exchange, embedded from
`crates/oidc-client/src/requests/authorization_code.rs`.  The HTTP transport,
signature verification and hashing are opaque capabilities supplied by an
environment, per spec section 1. -/

/-- The token endpoint response (`AccessTokenResponse`), reduced to the fields
the exchange inspects. -/
structure AccessTokenResponse where
  access_token : String
  id_token : Option String
deriving DecidableEq, Repr

/-- A verified ID token: its claims payload, as name-value pairs. -/
structure IdToken where
  payload : List (String × String)
deriving DecidableEq, Repr

/-- The data needed to verify an ID token (`JwtVerificationData` of
`requests/jose.rs`), as built by the callback handler. -/
structure JwtVerificationData where
  issuer : String
  signing_algorithm : JsonWebSignatureAlg
  client_id : String
deriving DecidableEq, Repr

/-- `AuthorizationValidationData` (authorization_code.rs lines 85-97). -/
structure AuthorizationValidationData where
  state : String
  nonce : String
  redirect_uri : String
  code_challenge_verifier : Option String
deriving DecidableEq, Repr

/-- The ID-token-side failures of the exchange (`IdTokenError`). -/
inductive IdTokenError
  | missingIdToken
  | verificationFailed
  | claimMismatch
deriving DecidableEq, Repr

/-- `TokenAuthorizationCodeError`: either the token request itself failed, or
the ID token processing did. -/
inductive TokenAuthorizationCodeError
  | token
  | idToken (e : IdTokenError)
deriving DecidableEq, Repr

/-- The claim with the given name in a claims payload, if present. -/
def lookupClaim (claims : List (String × String)) (name : String) : Option String :=
  (claims.find? (fun p => p.1 == name)).map (fun p => p.2)

/-- Modelled from the spec: the `extract_optional_with_options` pattern of
`mas_jose::claims` with an equality-checking validator (not under `src/`): a
missing claim is fine, a present claim must equal the expected value. -/
def extractOptionalEq (claims : List (String × String)) (name expected : String) :
    Except Unit Unit :=
  match lookupClaim claims name with
  | none => .ok ()
  | some v => if v = expected then .ok () else .error ()

/-- Modelled from the spec: the `extract_required_with_options` pattern of
`mas_jose::claims` with an equality-checking validator (not under `src/`): the
claim must be present and equal the expected value. -/
def extractRequiredEq (claims : List (String × String)) (name expected : String) :
    Except Unit String :=
  match lookupClaim claims name with
  | none => .error ()
  | some v => if v = expected then .ok v else .error ()

/-- The opaque capabilities behind the exchange: the token endpoint transport
(outcome of `request_access_token`), the ID token signature verification
(`verify_id_token` against the fetched JWKS), and the half-hash computation
backing `at_hash`/`c_hash` checks (`TokenHash`). -/
structure OidcEnv where
  tokenResponse : Except Unit AccessTokenResponse
  verify : String → JwtVerificationData → Except Unit IdToken
  tokenHash : JsonWebSignatureAlg → String → String

/-- `access_token_with_authorization_code` (authorization_code.rs lines
395-457): requests the token, then — when verification data is supplied —
requires an ID token in the response, verifies its signature, checks the
optional `at_hash` and `c_hash` claims against the respective token hashes,
and requires the `nonce` claim to equal the nonce of the stored validation
data. -/
def access_token_with_authorization_code (env : OidcEnv) (code : String)
    (validation_data : AuthorizationValidationData)
    (id_token_verification_data : Option JwtVerificationData) :
    Except TokenAuthorizationCodeError (AccessTokenResponse × Option IdToken) :=
  match env.tokenResponse with
  | .error _ => .error .token
  | .ok token_response =>
    match id_token_verification_data with
    | none => .ok (token_response, none)
    | some verification_data =>
      match token_response.id_token with
      | none => .error (.idToken .missingIdToken)
      | some raw =>
        match env.verify raw verification_data with
        | .error _ => .error (.idToken .verificationFailed)
        | .ok id_token =>
          match extractOptionalEq id_token.payload "at_hash"
              (env.tokenHash verification_data.signing_algorithm
                token_response.access_token) with
          | .error _ => .error (.idToken .claimMismatch)
          | .ok _ =>
            match extractOptionalEq id_token.payload "c_hash"
                (env.tokenHash verification_data.signing_algorithm code) with
            | .error _ => .error (.idToken .claimMismatch)
            | .ok _ =>
              match extractRequiredEq id_token.payload "nonce"
                  validation_data.nonce with
              | .error _ => .error (.idToken .claimMismatch)
              | .ok _ => .ok (token_response, some id_token)

/-! The upstream callback handler, embedded from
`crates/handlers/src/upstream_oauth2/callback.rs`. -/

/-- The query parameters of the callback: the `state`, and either a `code` or
an upstream error (`CodeOrError`, untagged). -/
inductive CodeOrError
  | codeParam (code : String)
  | errorParam (error : String) (error_description : Option String)
      (error_uri : Option String)
deriving DecidableEq, Repr

/-- The callback query string. -/
structure CallbackQueryParams where
  state : String
  code_or_error : CodeOrError
deriving DecidableEq, Repr

/-- The route errors of the callback handler (callback.rs lines 62-93). -/
inductive CallbackRouteError
  | sessionNotFound
  | providerMismatch
  | alreadyCompleted
  | stateMismatch
  | missingIDToken
  | invalidIdToken
  | clientError (error : String) (error_description : Option String)
  | missingCookie
  | internal
deriving DecidableEq, Repr

/-- The provider metadata obtained by discovery, reduced to what the handler
uses. -/
structure ProviderMetadata where
  jwks_uri : String
  token_endpoint : String
deriving DecidableEq, Repr

/-- The outward capabilities of the callback: discovery, the JWKS fetch, the
client-credential construction, and the token exchange environment. -/
structure CallbackEnv where
  discovery : Except Unit ProviderMetadata
  jwks : Except Unit Unit
  clientCredentials : Except Unit Unit
  oidc : OidcEnv

/-- The observable outcome of one callback request: the handler result (the
saved cookie and the link id redirected to), the database visible after the
call (errors roll the transaction back), whether a token exchange was
attempted, and — when it was — the signing algorithm passed into the ID token
verification data. -/
structure CallbackOutcome where
  result : Except CallbackRouteError (UpstreamSessionsCookie × Nat)
  db : UpstreamDb
  exchangeAttempted : Bool
  usedAlg : Option JsonWebSignatureAlg

/-- The redirect URI the handler supplies for the exchange
(`url_builder.upstream_oauth_callback(provider.id)`). -/
def upstreamOauthCallbackUri (pid : Nat) : String :=
  "/upstream/callback/" ++ toString pid

/-- The upstream callback handler `get` (callback.rs lines 115-253).  In order:
load the sessions cookie and find the (provider, state) entry, look the session
up (joined with its provider), check provider match, state match and
not-yet-completed, short-circuit on an upstream error parameter, then discover,
fetch the JWKS, build client credentials, build the validation data from the
session and the verification data from the provider — with the signing
algorithm hardcoded to RS256 as in the source (line 207, `TODO: make that
configurable`) — exchange the code, require and validate the ID token, extract
the subject, look up or create the link, complete the session, update the
cookie and commit. -/
def callbackGet (db : UpstreamDb) (cookie_jar : UpstreamSessionsCookie)
    (now : Nat) (provider_id : Nat) (params : CallbackQueryParams)
    (env : CallbackEnv) (newLinkId : Nat) : CallbackOutcome :=
  match cookieFindSession cookie_jar provider_id params.state with
  | none => ⟨.error .missingCookie, db, false, none⟩
  | some session_id =>
    match lookup_session db session_id with
    | none => ⟨.error .sessionNotFound, db, false, none⟩
    | some (provider, session) =>
      if provider.id ≠ provider_id then ⟨.error .providerMismatch, db, false, none⟩
      else if params.state ≠ session.state then ⟨.error .stateMismatch, db, false, none⟩
      else if session.completed then ⟨.error .alreadyCompleted, db, false, none⟩
      else
        match params.code_or_error with
        | .errorParam e d _ => ⟨.error (.clientError e d), db, false, none⟩
        | .codeParam code =>
          match env.discovery with
          | .error _ => ⟨.error .internal, db, false, none⟩
          | .ok _metadata =>
            match env.jwks with
            | .error _ => ⟨.error .internal, db, false, none⟩
            | .ok _ =>
              match env.clientCredentials with
              | .error _ => ⟨.error .internal, db, false, none⟩
              | .ok _ =>
                let validation_data : AuthorizationValidationData :=
                  { state := session.state, nonce := session.nonce,
                    redirect_uri := upstreamOauthCallbackUri provider.id,
                    code_challenge_verifier := session.code_challenge_verifier }
                let id_token_verification_data : JwtVerificationData :=
                  { issuer := provider.issuer,
                    signing_algorithm := JsonWebSignatureAlg.rs256,
                    client_id := provider.client_id }
                match access_token_with_authorization_code env.oidc code
                    validation_data (some id_token_verification_data) with
                | .error _ => ⟨.error .internal, db, true, some .rs256⟩
                | .ok (response, maybe_id_token) =>
                  match maybe_id_token with
                  | none => ⟨.error .missingIDToken, db, true, some .rs256⟩
                  | some id_token =>
                    match lookupClaim id_token.payload "sub" with
                    | none => ⟨.error .invalidIdToken, db, true, some .rs256⟩
                    | some subject =>
                      match lookup_link_by_subject db provider subject with
                      | some link =>
                        let res := complete_session db now session link response.id_token
                        ⟨.ok (cookieAddLinkToSession cookie_jar res.2.id link.id, link.id),
                         res.1, true, some .rs256⟩
                      | none =>
                        let added := add_link db now provider subject newLinkId
                        let res := complete_session added.1 now session added.2 response.id_token
                        ⟨.ok (cookieAddLinkToSession cookie_jar res.2.id added.2.id, added.2.id),
                         res.1, true, some .rs256⟩

/-! The link resolution endpoint, embedded from
`crates/handlers/src/upstream_oauth2/link.rs`. -/

/-- The route errors of the link resolution endpoint (link.rs lines 45-67). -/
inductive LinkRouteError
  | linkNotFound
  | sessionNotFound
  | sessionConsumed
  | missingCookie
  | invalidFormAction
  | internal
deriving DecidableEq, Repr

/-- The CSRF-protected form of the POST: a tagged action
(link.rs lines 85-91). -/
inductive FormData
  | register (username : String)
  | link
  | login
deriving DecidableEq, Repr

/-- The observable outcome of one POST to the link resolution endpoint: the
handler result (the saved cookie on success), and the database visible after
the call (errors roll the transaction back). -/
structure LinkPostOutcome where
  result : Except LinkRouteError UpstreamSessionsCookie
  db : UpstreamDb

/-- The link resolution handler `post` (link.rs lines 189-257).  In order: find
the resolved cookie entry for the link, look the link up, look the upstream
session up on that link (browser-continuity check), re-validate that the
session is not yet consumed, load the current browser session, dispatch on
(current session, link binding, form action) per the decision table — any other
combination is `InvalidFormAction` — then consume the upstream session, append
an upstream authentication, consume the cookie entry and commit.
`currentSessionId` is the browser session id carried by the session-info
cookie; `newUserId`, `newBrowserSessionId` and `newAuthenticationId` are the
freshly generated row ids. -/
def linkPost (db : UpstreamDb) (cookie_jar : UpstreamSessionsCookie) (now : Nat)
    (link_id : Nat) (form : FormData) (currentSessionId : Option Nat)
    (newUserId newBrowserSessionId newAuthenticationId : Nat) : LinkPostOutcome :=
  match cookieLookupLink cookie_jar link_id with
  | none => ⟨.error .missingCookie, db⟩
  | some session_id =>
    match lookup_link db link_id with
    | none => ⟨.error .linkNotFound, db⟩
    | some link =>
      match lookup_session_on_link db link session_id with
      | none => ⟨.error .sessionNotFound, db⟩
      | some upstream_session =>
        if upstream_session.consumed then ⟨.error .sessionConsumed, db⟩
        else
          let maybe_user_session := currentSessionId.bind (lookup_active_session db)
          let dispatch : Except LinkRouteError (UpstreamDb × BrowserSession) :=
            match maybe_user_session, link.user_id, form with
            | some session, none, .link =>
              match associate_link_to_user db link session.user with
              | .error _ => .error .internal
              | .ok db1 => .ok (db1, session)
            | none, some user_id, .login =>
              match lookup_user db user_id with
              | .error _ => .error .internal
              | .ok user => .ok (start_session db now user newBrowserSessionId)
            | none, none, .register username =>
              let addedUser := add_user db username newUserId
              match associate_link_to_user addedUser.1 link addedUser.2 with
              | .error _ => .error .internal
              | .ok db2 => .ok (start_session db2 now addedUser.2 newBrowserSessionId)
            | _, _, _ => .error .invalidFormAction
          match dispatch with
          | .error e => ⟨.error e, db⟩
          | .ok (db3, session) =>
            let consumed := consume_session db3 now upstream_session
            let db5 := authenticate_session_with_upstream consumed.1 now session link
              newAuthenticationId
            ⟨.ok (cookieConsumeLink cookie_jar link_id), db5⟩

/-- C2: the callback handler performs its four validity checks in order —
missing cookie entry for (provider, state), provider mismatch, state mismatch,
already completed — returning the corresponding error, touching no database
state, and attempting no token exchange (hence never examining the code/error
parameter, over which the statement is universally quantified) until all four
have passed. -/
theorem callback_validation_check_order
    (db : UpstreamDb) (cookie_jar : UpstreamSessionsCookie) (now : Nat)
    (provider_id : Nat) (params : CallbackQueryParams) (env : CallbackEnv)
    (newLinkId : Nat) :
    (cookieFindSession cookie_jar provider_id params.state = none →
      callbackGet db cookie_jar now provider_id params env newLinkId =
        ⟨.error .missingCookie, db, false, none⟩) ∧
    (∀ sid provider session,
      cookieFindSession cookie_jar provider_id params.state = some sid →
      lookup_session db sid = some (provider, session) →
      provider.id ≠ provider_id →
      callbackGet db cookie_jar now provider_id params env newLinkId =
        ⟨.error .providerMismatch, db, false, none⟩) ∧
    (∀ sid provider session,
      cookieFindSession cookie_jar provider_id params.state = some sid →
      lookup_session db sid = some (provider, session) →
      provider.id = provider_id → params.state ≠ session.state →
      callbackGet db cookie_jar now provider_id params env newLinkId =
        ⟨.error .stateMismatch, db, false, none⟩) ∧
    (∀ sid provider session,
      cookieFindSession cookie_jar provider_id params.state = some sid →
      lookup_session db sid = some (provider, session) →
      provider.id = provider_id → params.state = session.state →
      session.completed = true →
      callbackGet db cookie_jar now provider_id params env newLinkId =
        ⟨.error .alreadyCompleted, db, false, none⟩) := by
  refine ⟨fun h1 => ?_, fun sid provider session h1 h2 hp => ?_,
    fun sid provider session h1 h2 hp hs => ?_,
    fun sid provider session h1 h2 hp hs hc => ?_⟩
  · simp [callbackGet, h1]
  · simp [callbackGet, h1, h2, hp]
  · simp [callbackGet, h1, h2, hp, hs]
  · rw [hs] at h1
    simp [callbackGet, h1, h2, hp, hs, hc]

/-- Witness for C2: four concrete one-session configurations, one per failing
check. -/
theorem callback_validation_check_order_witness :
    (callbackGet ⟨[], [], [], [], [], []⟩ [] 0 7 ⟨"st", .codeParam "c"⟩
      ⟨.ok ⟨"j", "t"⟩, .ok (), .ok (), ⟨.error (), fun _ _ => .error (), fun _ _ => ""⟩⟩ 1 =
      ⟨.error .missingCookie, ⟨[], [], [], [], [], []⟩, false, none⟩) ∧
    (callbackGet
      ⟨[⟨9, "iss", "openid", "cid", none, "m", none, 0⟩],
       [⟨1, 9, none, "st", none, "n", none, 0, none, none⟩], [], [], [], []⟩
      [⟨1, 7, "st", none⟩] 0 7 ⟨"st", .codeParam "c"⟩
      ⟨.ok ⟨"j", "t"⟩, .ok (), .ok (), ⟨.error (), fun _ _ => .error (), fun _ _ => ""⟩⟩ 1 =
      ⟨.error .providerMismatch,
       ⟨[⟨9, "iss", "openid", "cid", none, "m", none, 0⟩],
        [⟨1, 9, none, "st", none, "n", none, 0, none, none⟩], [], [], [], []⟩, false, none⟩) ∧
    (callbackGet
      ⟨[⟨7, "iss", "openid", "cid", none, "m", none, 0⟩],
       [⟨1, 7, none, "other", none, "n", none, 0, none, none⟩], [], [], [], []⟩
      [⟨1, 7, "st", none⟩] 0 7 ⟨"st", .codeParam "c"⟩
      ⟨.ok ⟨"j", "t"⟩, .ok (), .ok (), ⟨.error (), fun _ _ => .error (), fun _ _ => ""⟩⟩ 1 =
      ⟨.error .stateMismatch,
       ⟨[⟨7, "iss", "openid", "cid", none, "m", none, 0⟩],
        [⟨1, 7, none, "other", none, "n", none, 0, none, none⟩], [], [], [], []⟩, false, none⟩) ∧
    (callbackGet
      ⟨[⟨7, "iss", "openid", "cid", none, "m", none, 0⟩],
       [⟨1, 7, some 4, "st", none, "n", some "i", 0, some 3, none⟩], [], [], [], []⟩
      [⟨1, 7, "st", none⟩] 0 7 ⟨"st", .codeParam "c"⟩
      ⟨.ok ⟨"j", "t"⟩, .ok (), .ok (), ⟨.error (), fun _ _ => .error (), fun _ _ => ""⟩⟩ 1 =
      ⟨.error .alreadyCompleted,
       ⟨[⟨7, "iss", "openid", "cid", none, "m", none, 0⟩],
        [⟨1, 7, some 4, "st", none, "n", some "i", 0, some 3, none⟩], [], [], [], []⟩,
       false, none⟩) :=
  ⟨(callback_validation_check_order _ _ _ _ _ _ _).1 (by decide),
   (callback_validation_check_order _ _ _ _ _ _ _).2.1 1
     ⟨9, "iss", "openid", "cid", none, "m", none, 0⟩
     ⟨1, 9, none, "st", none, "n", none, 0, none, none⟩ (by decide) (by decide) (by decide),
   (callback_validation_check_order _ _ _ _ _ _ _).2.2.1 1
     ⟨7, "iss", "openid", "cid", none, "m", none, 0⟩
     ⟨1, 7, none, "other", none, "n", none, 0, none, none⟩
     (by decide) (by decide) (by decide) (by decide),
   (callback_validation_check_order _ _ _ _ _ _ _).2.2.2 1
     ⟨7, "iss", "openid", "cid", none, "m", none, 0⟩
     ⟨1, 7, some 4, "st", none, "n", some "i", 0, some 3, none⟩
     (by decide) (by decide) (by decide) (by decide) (by decide)⟩

/-- C3: when the upstream returned an error parameter instead of a code and the
four validity checks pass, the callback short-circuits to `ClientError`
carrying the upstream's error code and description, attempts no token exchange,
and commits no database writes — the session stays Pending and no link row is
created. -/
theorem callback_error_param_short_circuit
    (db : UpstreamDb) (cookie_jar : UpstreamSessionsCookie) (now : Nat)
    (provider_id : Nat) (params : CallbackQueryParams) (env : CallbackEnv)
    (newLinkId : Nat) (sid : Nat) (provider : UpstreamOAuthProvider)
    (session : UpstreamOAuthAuthorizationSession) (e : String)
    (d : Option String) (u : Option String)
    (h1 : cookieFindSession cookie_jar provider_id params.state = some sid)
    (h2 : lookup_session db sid = some (provider, session))
    (hp : provider.id = provider_id)
    (hs : params.state = session.state)
    (hc : session.completed = false)
    (hcoe : params.code_or_error = .errorParam e d u) :
    callbackGet db cookie_jar now provider_id params env newLinkId =
      ⟨.error (.clientError e d), db, false, none⟩ ∧
    session.completed_at = none ∧
    (callbackGet db cookie_jar now provider_id params env newLinkId).db.links = db.links := by
  have hpend : session.completed_at = none := by
    cases hcc : session.completed_at with
    | none => rfl
    | some t => simp [UpstreamOAuthAuthorizationSession.completed, hcc] at hc
  have hmain : callbackGet db cookie_jar now provider_id params env newLinkId =
      ⟨.error (.clientError e d), db, false, none⟩ := by
    rw [hs] at h1
    simp [callbackGet, h1, h2, hp, hs, hc, hcoe]
  exact ⟨hmain, hpend, by rw [hmain]⟩

/-- Witness for C3: a concrete pending session receiving
`error=access_denied`. -/
theorem callback_error_param_short_circuit_witness :
    callbackGet
      ⟨[⟨7, "iss", "openid", "cid", none, "m", none, 0⟩],
       [⟨1, 7, none, "st", none, "n", none, 0, none, none⟩], [], [], [], []⟩
      [⟨1, 7, "st", none⟩] 0 7 ⟨"st", .errorParam "access_denied" (some "denied") none⟩
      ⟨.ok ⟨"j", "t"⟩, .ok (), .ok (), ⟨.error (), fun _ _ => .error (), fun _ _ => ""⟩⟩ 1 =
      ⟨.error (.clientError "access_denied" (some "denied")),
       ⟨[⟨7, "iss", "openid", "cid", none, "m", none, 0⟩],
        [⟨1, 7, none, "st", none, "n", none, 0, none, none⟩], [], [], [], []⟩, false, none⟩ ∧
    (⟨1, 7, none, "st", none, "n", none, 0, none, none⟩ :
      UpstreamOAuthAuthorizationSession).completed_at = none ∧
    (callbackGet
      ⟨[⟨7, "iss", "openid", "cid", none, "m", none, 0⟩],
       [⟨1, 7, none, "st", none, "n", none, 0, none, none⟩], [], [], [], []⟩
      [⟨1, 7, "st", none⟩] 0 7 ⟨"st", .errorParam "access_denied" (some "denied") none⟩
      ⟨.ok ⟨"j", "t"⟩, .ok (), .ok (), ⟨.error (), fun _ _ => .error (), fun _ _ => ""⟩⟩
      1).db.links = [] :=
  callback_error_param_short_circuit _ _ _ _ _ _ _ 1
    ⟨7, "iss", "openid", "cid", none, "m", none, 0⟩
    ⟨1, 7, none, "st", none, "n", none, 0, none, none⟩ "access_denied" (some "denied") none
    (by decide) (by decide) (by decide) (by decide) (by decide) (by decide)

/-- C4 counterexample: a concrete callback run that reaches ID-token
verification on a session whose provider is configured with the ES256 signing
algorithm; the handler nevertheless builds the verification data with RS256
(the hardcoded value of callback.rs line 207), so the provider's stored
`token_endpoint_signing_alg` is not the algorithm used. -/
theorem callback_signing_alg_counterexample :
    (callbackGet
      ⟨[⟨7, "https://idp.example", "openid", "cid", none, "client_secret_basic",
          some JsonWebSignatureAlg.es256, 0⟩],
       [⟨1, 7, none, "st", none, "n", none, 0, none, none⟩], [], [], [], []⟩
      [⟨1, 7, "st", none⟩] 5 7 ⟨"st", .codeParam "c"⟩
      ⟨.ok ⟨"j", "t"⟩, .ok (), .ok (),
       ⟨.ok ⟨"acc", some "rawidt"⟩,
        fun _ _ => .ok ⟨[("nonce", "n"), ("sub", "alice")]⟩,
        fun _ _ => "h"⟩⟩
      42).usedAlg = some JsonWebSignatureAlg.rs256 ∧
    (callbackGet
      ⟨[⟨7, "https://idp.example", "openid", "cid", none, "client_secret_basic",
          some JsonWebSignatureAlg.es256, 0⟩],
       [⟨1, 7, none, "st", none, "n", none, 0, none, none⟩], [], [], [], []⟩
      [⟨1, 7, "st", none⟩] 5 7 ⟨"st", .codeParam "c"⟩
      ⟨.ok ⟨"j", "t"⟩, .ok (), .ok (),
       ⟨.ok ⟨"acc", some "rawidt"⟩,
        fun _ _ => .ok ⟨[("nonce", "n"), ("sub", "alice")]⟩,
        fun _ _ => "h"⟩⟩
      42).result = .ok ([⟨1, 7, "st", some 42⟩], 42) ∧
    (lookup_session
      ⟨[⟨7, "https://idp.example", "openid", "cid", none, "client_secret_basic",
          some JsonWebSignatureAlg.es256, 0⟩],
       [⟨1, 7, none, "st", none, "n", none, 0, none, none⟩], [], [], [], []⟩ 1).map
      (fun pr => pr.1.token_endpoint_signing_alg) = some (some JsonWebSignatureAlg.es256) ∧
    JsonWebSignatureAlg.rs256 ≠ JsonWebSignatureAlg.es256 := by
  refine ⟨by rfl, by rfl, by rfl, by decide⟩

/-- C4 (amended): in the callback, any ID-token verification data ever passed
to the token exchange carries the fixed RS256 signing algorithm, regardless of
the provider's stored `token_endpoint_signing_alg`; and when the exchange
succeeds but the verified ID token carries no `subject` claim, the handler
fails with `InvalidIdToken`. -/
theorem callback_id_token_verification
    : (∀ db cookie_jar now provider_id params env newLinkId,
      (callbackGet db cookie_jar now provider_id params env newLinkId).usedAlg = none ∨
      (callbackGet db cookie_jar now provider_id params env newLinkId).usedAlg =
        some JsonWebSignatureAlg.rs256) ∧
    (∀ db cookie_jar now provider_id params env newLinkId sid provider session code md
        response idt,
      cookieFindSession cookie_jar provider_id params.state = some sid →
      lookup_session db sid = some (provider, session) →
      provider.id = provider_id →
      params.state = session.state →
      session.completed = false →
      params.code_or_error = .codeParam code →
      env.discovery = .ok md →
      env.jwks = .ok () →
      env.clientCredentials = .ok () →
      access_token_with_authorization_code env.oidc code
        ⟨session.state, session.nonce, upstreamOauthCallbackUri provider_id,
          session.code_challenge_verifier⟩
        (some ⟨provider.issuer, JsonWebSignatureAlg.rs256, provider.client_id⟩) =
        .ok (response, some idt) →
      lookupClaim idt.payload "sub" = none →
      (callbackGet db cookie_jar now provider_id params env newLinkId).result =
        .error .invalidIdToken) := by
  constructor
  · intro db cookie_jar now provider_id params env newLinkId
    unfold callbackGet
    repeat' split
    all_goals (try simp)
    all_goals (repeat' split)
    all_goals simp
  · intro db cookie_jar now provider_id params env newLinkId sid provider session code md
      response idt h1 h2 hp hs hc hcoe hdisc hjwks hcred hexch hsub
    rw [hs] at h1
    simp only [callbackGet, h1, h2, hp, hs, hc, hcoe, hdisc, hjwks, hcred]
    rw [hexch]
    simp [hsub]

/-- Witness for C4: the amended theorem applied at a concrete run where the ID
token lacks a subject claim, plus the hypothesis-free algorithm invariant at a
trivial input. -/
theorem callback_id_token_verification_witness :
    ((callbackGet ⟨[], [], [], [], [], []⟩ [] 0 7 ⟨"st", .codeParam "c"⟩
      ⟨.error (), .error (), .error (), ⟨.error (), fun _ _ => .error (), fun _ _ => ""⟩⟩
      1).usedAlg = none ∨
     (callbackGet ⟨[], [], [], [], [], []⟩ [] 0 7 ⟨"st", .codeParam "c"⟩
      ⟨.error (), .error (), .error (), ⟨.error (), fun _ _ => .error (), fun _ _ => ""⟩⟩
      1).usedAlg = some JsonWebSignatureAlg.rs256) ∧
    (callbackGet
      ⟨[⟨7, "https://idp.example", "openid", "cid", none, "client_secret_basic",
          some JsonWebSignatureAlg.es256, 0⟩],
       [⟨1, 7, none, "st", none, "n", none, 0, none, none⟩], [], [], [], []⟩
      [⟨1, 7, "st", none⟩] 5 7 ⟨"st", .codeParam "c"⟩
      ⟨.ok ⟨"j", "t"⟩, .ok (), .ok (),
       ⟨.ok ⟨"acc", some "rawidt"⟩,
        fun _ _ => .ok ⟨[("nonce", "n")]⟩,
        fun _ _ => "h"⟩⟩
      42).result = .error .invalidIdToken :=
  ⟨(callback_id_token_verification).1 ⟨[], [], [], [], [], []⟩ [] 0 7 ⟨"st", .codeParam "c"⟩
      ⟨.error (), .error (), .error (), ⟨.error (), fun _ _ => .error (), fun _ _ => ""⟩⟩ 1,
   (callback_id_token_verification).2
      ⟨[⟨7, "https://idp.example", "openid", "cid", none, "client_secret_basic",
          some JsonWebSignatureAlg.es256, 0⟩],
       [⟨1, 7, none, "st", none, "n", none, 0, none, none⟩], [], [], [], []⟩
      [⟨1, 7, "st", none⟩] 5 7 ⟨"st", .codeParam "c"⟩
      ⟨.ok ⟨"j", "t"⟩, .ok (), .ok (),
       ⟨.ok ⟨"acc", some "rawidt"⟩,
        fun _ _ => .ok ⟨[("nonce", "n")]⟩,
        fun _ _ => "h"⟩⟩
      42 1
      ⟨7, "https://idp.example", "openid", "cid", none, "client_secret_basic",
        some JsonWebSignatureAlg.es256, 0⟩
      ⟨1, 7, none, "st", none, "n", none, 0, none, none⟩
      "c" ⟨"j", "t"⟩ ⟨"acc", some "rawidt"⟩ ⟨[("nonce", "n")]⟩
      (by rfl) (by rfl) (by rfl) (by rfl) (by rfl) (by rfl) (by rfl) (by rfl) (by rfl)
      (by rfl) (by rfl)⟩


/-- C5 counterexample: `complete_session` called on an already-completed
session (completed at time 3) does not fail â there is no precondition check in
session.rs lines 211-239 â and the row is overwritten: its `completed_at`
becomes the new instant 9, its link and id_token are replaced. -/
theorem complete_session_no_precondition_counterexample :
    (complete_session
      ⟨[], [⟨1, 7, some 4, "st", none, "n", some "idt", 0, some 3, none⟩], [], [], [], []⟩
      9 ⟨1, 7, some 4, "st", none, "n", some "idt", 0, some 3, none⟩
      ⟨5, 7, none, "alice", 0⟩ (some "idt2")).1.sessions =
      [⟨1, 7, some 5, "st", none, "n", some "idt2", 0, some 9, none⟩] ∧
    (complete_session
      ⟨[], [⟨1, 7, some 4, "st", none, "n", some "idt", 0, some 3, none⟩], [], [], [], []⟩
      9 ⟨1, 7, some 4, "st", none, "n", some "idt", 0, some 3, none⟩
      ⟨5, 7, none, "alice", 0⟩ (some "idt2")).2.completed_at = some 9 ∧
    (⟨1, 7, some 4, "st", none, "n", some "idt", 0, some 3, none⟩ :
      UpstreamOAuthAuthorizationSession).completed = true := by
  refine ⟨by decide, by decide, by decide⟩

/-- C5 (amended): the store operation `complete_session` performs no
already-completed check itself â it unconditionally updates the row, setting
`link_id`, `completed_at` (and `id_token`) together in the one transactional
update, and leaves every other row untouched; the precondition is enforced by
the caller: the callback handler returns `AlreadyCompleted` without invoking
`complete_session` whenever the looked-up session is already completed. -/
theorem complete_session_unconditional_update
    (db : UpstreamDb) (now : Nat) (session : UpstreamOAuthAuthorizationSession)
    (link : UpstreamOAuthLink) (tok : Option String) :
    (∀ r ∈ (complete_session db now session link tok).1.sessions,
      r.id = session.id → r.link_id = some link.id ∧ r.completed_at = some now ∧
        r.id_token = tok) ∧
    (∀ r ∈ db.sessions, r.id ≠ session.id →
      r ∈ (complete_session db now session link tok).1.sessions) ∧
    (∀ cookie_jar provider_id params env newLinkId sid provider,
      cookieFindSession cookie_jar provider_id params.state = some sid →
      lookup_session db sid = some (provider, session) →
      provider.id = provider_id → params.state = session.state →
      session.completed = true →
      callbackGet db cookie_jar now provider_id params env newLinkId =
        ⟨.error .alreadyCompleted, db, false, none⟩) := by
  refine ⟨?_, ?_, ?_⟩
  · intro r hr hid
    simp only [complete_session] at hr
    obtain ⟨o, ho, rfl⟩ := List.mem_map.mp hr
    by_cases h : (o.id == session.id) = true
    · simp [h]
    · simp only [h, Bool.false_eq_true, if_false] at hid ⊢
      exact absurd (beq_iff_eq.mpr hid) (by simpa using h)
  · intro r hr hne
    simp only [complete_session]
    exact List.mem_map.mpr ⟨r, hr, by simp [hne]⟩
  · intro cookie_jar provider_id params env newLinkId sid provider h1 h2 hp hs hc
    rw [hs] at h1
    simp [callbackGet, h1, h2, hp, hs, hc]

/-- Witness for C5 (amended): a two-row database whose first session is
completed; the update stamps the matching row, keeps the other row, and the
callback refuses to complete the completed session. -/
theorem complete_session_unconditional_update_witness :
    ((⟨1, 7, some 5, "st", none, "n", some "t2", 0, some 9, none⟩ :
        UpstreamOAuthAuthorizationSession).link_id = some 5 ∧
      (⟨1, 7, some 5, "st", none, "n", some "t2", 0, some 9, none⟩ :
        UpstreamOAuthAuthorizationSession).completed_at = some 9 ∧
      (⟨1, 7, some 5, "st", none, "n", some "t2", 0, some 9, none⟩ :
        UpstreamOAuthAuthorizationSession).id_token = some "t2") ∧
    (⟨2, 7, none, "s2", none, "n2", none, 0, none, none⟩ :
        UpstreamOAuthAuthorizationSession) ∈
      (complete_session
        ⟨[⟨7, "iss", "openid", "cid", none, "m", none, 0⟩],
         [⟨1, 7, some 4, "st", none, "n", some "idt", 0, some 3, none⟩,
          ⟨2, 7, none, "s2", none, "n2", none, 0, none, none⟩], [], [], [], []⟩
        9 ⟨1, 7, some 4, "st", none, "n", some "idt", 0, some 3, none⟩
        ⟨5, 7, none, "alice", 0⟩ (some "t2")).1.sessions ∧
    callbackGet
      ⟨[⟨7, "iss", "openid", "cid", none, "m", none, 0⟩],
       [⟨1, 7, some 4, "st", none, "n", some "idt", 0, some 3, none⟩,
        ⟨2, 7, none, "s2", none, "n2", none, 0, none, none⟩], [], [], [], []⟩
      [⟨1, 7, "st", none⟩] 9 7 ⟨"st", .codeParam "c"⟩
      ⟨.error (), .error (), .error (), ⟨.error (), fun _ _ => .error (), fun _ _ => ""⟩⟩ 3 =
      ⟨.error .alreadyCompleted,
       ⟨[⟨7, "iss", "openid", "cid", none, "m", none, 0⟩],
        [⟨1, 7, some 4, "st", none, "n", some "idt", 0, some 3, none⟩,
         ⟨2, 7, none, "s2", none, "n2", none, 0, none, none⟩], [], [], [], []⟩,
       false, none⟩ :=
  ⟨(complete_session_unconditional_update
      ⟨[⟨7, "iss", "openid", "cid", none, "m", none, 0⟩],
       [⟨1, 7, some 4, "st", none, "n", some "idt", 0, some 3, none⟩,
        ⟨2, 7, none, "s2", none, "n2", none, 0, none, none⟩], [], [], [], []⟩
      9 ⟨1, 7, some 4, "st", none, "n", some "idt", 0, some 3, none⟩
      ⟨5, 7, none, "alice", 0⟩ (some "t2")).1
      ⟨1, 7, some 5, "st", none, "n", some "t2", 0, some 9, none⟩ (by decide) (by decide),
   (complete_session_unconditional_update
      ⟨[⟨7, "iss", "openid", "cid", none, "m", none, 0⟩],
       [⟨1, 7, some 4, "st", none, "n", some "idt", 0, some 3, none⟩,
        ⟨2, 7, none, "s2", none, "n2", none, 0, none, none⟩], [], [], [], []⟩
      9 ⟨1, 7, some 4, "st", none, "n", some "idt", 0, some 3, none⟩
      ⟨5, 7, none, "alice", 0⟩ (some "t2")).2.1
      ⟨2, 7, none, "s2", none, "n2", none, 0, none, none⟩ (by decide) (by decide),
   (complete_session_unconditional_update
      ⟨[⟨7, "iss", "openid", "cid", none, "m", none, 0⟩],
       [⟨1, 7, some 4, "st", none, "n", some "idt", 0, some 3, none⟩,
        ⟨2, 7, none, "s2", none, "n2", none, 0, none, none⟩], [], [], [], []⟩
      9 ⟨1, 7, some 4, "st", none, "n", some "idt", 0, some 3, none⟩
      ⟨5, 7, none, "alice", 0⟩ (some "t2")).2.2
      [⟨1, 7, "st", none⟩] 7 ⟨"st", .codeParam "c"⟩
      ⟨.error (), .error (), .error (), ⟨.error (), fun _ _ => .error (), fun _ _ => ""⟩⟩ 3 1
      ⟨7, "iss", "openid", "cid", none, "m", none, 0⟩
      (by decide) (by decide) (by decide) (by decide) (by decide)⟩


/-! The session state machine: steps of the store as the handlers invoke them,
for the monotonicity claim. -/

/-- One mutation of the upstream-session tables, as the implementation paths
invoke the store: `add_session` on a fresh id (primary-key uniqueness),
`complete_session` guarded by the callback's not-yet-completed check
(callback.rs lines 148-151), `consume_session` guarded by the link handler's
lookup-on-link and not-yet-consumed checks (link.rs lines 113-119 and 214-220),
and any operation that leaves the session table untouched (link, user and
browser-session writes). -/
inductive UpstreamStep : UpstreamDb → UpstreamDb → Prop
  | add (db : UpstreamDb) (now : Nat) (provider : UpstreamOAuthProvider)
      (state : String) (cv : Option String) (nonce : String) (sid : Nat)
      (hfresh : ∀ r ∈ db.sessions, r.id ≠ sid) :
      UpstreamStep db (add_session db now provider state cv nonce sid).1
  | complete (db : UpstreamDb) (now : Nat) (sid : Nat)
      (provider : UpstreamOAuthProvider) (session : UpstreamOAuthAuthorizationSession)
      (link : UpstreamOAuthLink) (tok : Option String)
      (hlook : lookup_session db sid = some (provider, session))
      (hpend : session.completed = false) :
      UpstreamStep db (complete_session db now session link tok).1
  | consume (db : UpstreamDb) (now : Nat) (link : UpstreamOAuthLink) (sid : Nat)
      (session : UpstreamOAuthAuthorizationSession)
      (hlook : lookup_session_on_link db link sid = some session)
      (hcons : session.consumed = false) :
      UpstreamStep db (consume_session db now session).1
  | frame (db db' : UpstreamDb) (hs : db'.sessions = db.sessions) :
      UpstreamStep db db'

/-- The databases reachable from the empty state through store steps. -/
inductive UpstreamReach : UpstreamDb → Prop
  | empty : UpstreamReach ⟨[], [], [], [], [], []⟩
  | step {db db' : UpstreamDb} :
      UpstreamReach db → UpstreamStep db db' → UpstreamReach db'

/-- The session-table invariant: ids are unique, a consumed session is
completed, and a link is attached exactly when the session is completed. -/
def SessionStateInv (db : UpstreamDb) : Prop :=
  (db.sessions.map fun r => r.id).Nodup ∧
  ∀ r ∈ db.sessions, (r.consumed_at.isSome → r.completed_at.isSome) ∧
    (r.link_id.isSome ↔ r.completed_at.isSome)

/-- Forward movement of the per-row timestamps across one database change:
every row survives (under its id) with neither `completed_at` nor `consumed_at`
reset to null. -/
def SessionMonotone (db db' : UpstreamDb) : Prop :=
  ∀ r ∈ db.sessions, ∃ r' ∈ db'.sessions, r'.id = r.id ∧
    (r.completed_at.isSome → r'.completed_at.isSome) ∧
    (r.consumed_at.isSome → r'.consumed_at.isSome)

/-- Helper: a per-row update that preserves ids preserves the id list. -/
theorem sessions_map_id_update
    {f : UpstreamOAuthAuthorizationSession → UpstreamOAuthAuthorizationSession}
    (hf : ∀ r, (f r).id = r.id) (l : List UpstreamOAuthAuthorizationSession) :
    (l.map f).map (fun r => r.id) = l.map (fun r => r.id) := by
  rw [List.map_map]
  exact List.map_congr_left fun r _ => hf r

/-- C7: the session state machine only moves forward.  Every reachable database
satisfies the session invariant (consumed implies completed, link attached iff
completed, unique ids); every store step is monotone (no row loses a set
timestamp); `add_session` creates both timestamps null; `complete_session`
leaves every row's `consumed_at` untouched; and `consume_session` leaves every
row's `completed_at` and `link_id` untouched. -/
theorem upstream_session_state_machine :
    (∀ db, UpstreamReach db → SessionStateInv db) ∧
    (∀ db db', UpstreamStep db db' → SessionMonotone db db') ∧
    (∀ db now provider state cv nonce sid,
      (add_session db now provider state cv nonce sid).2.completed_at = none ∧
      (add_session db now provider state cv nonce sid).2.consumed_at = none) ∧
    (∀ db now session link tok,
      ∀ r' ∈ (complete_session db now session link tok).1.sessions,
      ∃ r ∈ db.sessions, r'.consumed_at = r.consumed_at) ∧
    (∀ db now session, ∀ r' ∈ (consume_session db now session).1.sessions,
      ∃ r ∈ db.sessions, r'.completed_at = r.completed_at ∧ r'.link_id = r.link_id) := by
  have hmono : ∀ db db', UpstreamStep db db' → SessionMonotone db db' := by
    intro db db' hstep
    cases hstep with
    | add now provider state cv nonce sid hfresh =>
      intro r hr
      refine ⟨r, ?_, rfl, id, id⟩
      simp only [add_session]
      exact List.mem_append_left _ hr
    | complete now sid provider session link tok hlook hpend =>
      intro r hr
      refine ⟨_, List.mem_map_of_mem _ hr, ?_, ?_, ?_⟩ <;>
        by_cases h : r.id = session.id <;> simp [complete_session, h]
    | consume now link sid session hlook hcons =>
      intro r hr
      refine ⟨_, List.mem_map_of_mem _ hr, ?_, ?_, ?_⟩ <;>
        by_cases h : r.id = session.id <;> simp [consume_session, h]
    | frame db1 hs =>
      intro r hr
      exact ⟨r, hs ▸ hr, rfl, id, id⟩
  refine ⟨?_, hmono, ?_, ?_, ?_⟩
  · intro db hreach
    induction hreach with
    | empty => exact ⟨by simp, by simp⟩
    | step hr hstep ih =>
      rename_i db0 db1
      obtain ⟨hnodup, hrows⟩ := ih
      cases hstep with
      | add now provider state cv nonce sid hfresh =>
        constructor
        · simp only [add_session, List.map_append]
          have hnotin : sid ∉ db0.sessions.map (fun r => r.id) := by
            intro hmem
            obtain ⟨o, ho, hid⟩ := List.mem_map.mp hmem
            exact hfresh o ho hid
          simp [List.nodup_append, hnodup, hnotin]
        · intro r hrr
          simp only [add_session] at hrr
          rcases List.mem_append.mp hrr with hold | hnew
          · exact hrows r hold
          · have hre : r = ⟨sid, provider.id, none, state, cv, nonce, none, now, none, none⟩ := by
              simpa using hnew
            subst hre
            simp
      | complete now sid provider session link tok hlook hpend =>
        constructor
        · simp only [complete_session]
          rw [sessions_map_id_update (fun r => by
            by_cases h : r.id = session.id <;> simp [h])]
          exact hnodup
        · intro r' hr'
          simp only [complete_session] at hr'
          obtain ⟨o, ho, rfl⟩ := List.mem_map.mp hr'
          by_cases h : o.id = session.id
          · rw [if_pos (beq_iff_eq.mpr h)]
            simp
          · rw [if_neg (by simpa using h)]
            exact hrows o ho
      | consume now link sid session hlook hcons =>
        have hfind : db0.sessions.find?
            (fun s => s.id == sid && s.link_id == some link.id) = some session := hlook
        have hsessmem : session ∈ db0.sessions := List.mem_of_find?_eq_some hfind
        have hsessp := List.find?_some hfind
        simp only [Bool.and_eq_true, beq_iff_eq] at hsessp
        have hlinkSome : session.link_id.isSome = true := by rw [hsessp.2]; rfl
        have hcompl : session.completed_at.isSome = true :=
          ((hrows session hsessmem).2).mp hlinkSome
        constructor
        · simp only [consume_session]
          rw [sessions_map_id_update (fun r => by
            by_cases h : r.id = session.id <;> simp [h])]
          exact hnodup
        · intro r' hr'
          simp only [consume_session] at hr'
          obtain ⟨o, ho, rfl⟩ := List.mem_map.mp hr'
          by_cases h : o.id = session.id
          · have ho_eq : o = session :=
              List.inj_on_of_nodup_map hnodup ho hsessmem h
            subst ho_eq
            rw [if_pos (beq_iff_eq.mpr h)]
            exact ⟨fun _ => hcompl, ⟨fun _ => hcompl, fun _ => hlinkSome⟩⟩
          · rw [if_neg (by simpa using h)]
            exact hrows o ho
      | frame db1 hs =>
        refine ⟨?_, ?_⟩
        · rw [hs]; exact hnodup
        · rw [hs]; exact hrows
  · intro db now provider state cv nonce sid
    simp [add_session]
  · intro db now session link tok r' hr'
    simp only [complete_session] at hr'
    obtain ⟨o, ho, rfl⟩ := List.mem_map.mp hr'
    refine ⟨o, ho, ?_⟩
    by_cases h : o.id = session.id <;> simp [h]
  · intro db now session r' hr'
    simp only [consume_session] at hr'
    obtain ⟨o, ho, rfl⟩ := List.mem_map.mp hr'
    refine ⟨o, ho, ?_⟩
    by_cases h : o.id = session.id <;> simp [h]

/-- Witness for C7: the invariant holds for the database reached by one
`add_session` from the empty state, that step is monotone, and the
untouched-field parts evaluated on a concrete one-row table. -/
theorem upstream_session_state_machine_witness :
    SessionStateInv
      (add_session ⟨[], [], [], [], [], []⟩ 0
        ⟨7, "iss", "openid", "cid", none, "m", none, 0⟩ "st" none "n" 1).1 ∧
    SessionMonotone ⟨[], [], [], [], [], []⟩
      (add_session ⟨[], [], [], [], [], []⟩ 0
        ⟨7, "iss", "openid", "cid", none, "m", none, 0⟩ "st" none "n" 1).1 ∧
    (∃ r ∈ [(⟨1, 7, none, "st", none, "n", none, 0, none, some 3⟩ :
        UpstreamOAuthAuthorizationSession)],
      (⟨1, 7, some 4, "st", none, "n", some "t", 0, some 9, some 3⟩ :
        UpstreamOAuthAuthorizationSession).consumed_at = r.consumed_at) ∧
    (∃ r ∈ [(⟨1, 7, some 4, "st", none, "n", some "t", 0, some 9, none⟩ :
        UpstreamOAuthAuthorizationSession)],
      (⟨1, 7, some 4, "st", none, "n", some "t", 0, some 9, some 5⟩ :
        UpstreamOAuthAuthorizationSession).completed_at = r.completed_at ∧
      (⟨1, 7, some 4, "st", none, "n", some "t", 0, some 9, some 5⟩ :
        UpstreamOAuthAuthorizationSession).link_id = r.link_id) :=
  ⟨upstream_session_state_machine.1 _
     (UpstreamReach.step UpstreamReach.empty
       (UpstreamStep.add ⟨[], [], [], [], [], []⟩ 0
         ⟨7, "iss", "openid", "cid", none, "m", none, 0⟩ "st" none "n" 1 (by simp))),
   upstream_session_state_machine.2.1 _ _
     (UpstreamStep.add ⟨[], [], [], [], [], []⟩ 0
       ⟨7, "iss", "openid", "cid", none, "m", none, 0⟩ "st" none "n" 1 (by simp)),
   upstream_session_state_machine.2.2.2.1
     ⟨[], [⟨1, 7, none, "st", none, "n", none, 0, none, some 3⟩], [], [], [], []⟩
     9 ⟨1, 7, none, "st", none, "n", none, 0, none, some 3⟩ ⟨4, 7, none, "a", 0⟩
     (some "t")
     ⟨1, 7, some 4, "st", none, "n", some "t", 0, some 9, some 3⟩ (by decide),
   upstream_session_state_machine.2.2.2.2
     ⟨[], [⟨1, 7, some 4, "st", none, "n", some "t", 0, some 9, none⟩], [], [], [], []⟩
     5 ⟨1, 7, some 4, "st", none, "n", some "t", 0, some 9, none⟩
     ⟨1, 7, some 4, "st", none, "n", some "t", 0, some 9, some 5⟩ (by decide)⟩


/-- C8: the link resolution POST re-validates that the upstream session is not
yet consumed before performing any mutation: on an already-consumed session it
returns `SessionConsumed` and the database is unchanged — none of
`associate_link_to_user`, `add_user`, `start_session`, `consume_session` or
`authenticate_session_with_upstream` takes effect. -/
theorem link_post_consumed_guard
    (db : UpstreamDb) (cookie_jar : UpstreamSessionsCookie) (now link_id : Nat)
    (form : FormData) (currentSessionId : Option Nat) (nuid nbsid naid : Nat)
    (sid : Nat) (link : UpstreamOAuthLink)
    (upstream_session : UpstreamOAuthAuthorizationSession)
    (h1 : cookieLookupLink cookie_jar link_id = some sid)
    (h2 : lookup_link db link_id = some link)
    (h3 : lookup_session_on_link db link sid = some upstream_session)
    (h4 : upstream_session.consumed = true) :
    linkPost db cookie_jar now link_id form currentSessionId nuid nbsid naid =
      ⟨.error .sessionConsumed, db⟩ := by
  simp [linkPost, h1, h2, h3, h4]

/-- Witness for C8: a concrete already-consumed session behind the link. -/
theorem link_post_consumed_guard_witness :
    linkPost
      ⟨[⟨7, "iss", "openid", "cid", none, "m", none, 0⟩],
       [⟨1, 7, some 4, "st", none, "n", some "t", 0, some 3, some 5⟩],
       [⟨4, 7, some 2, "alice", 0⟩], [⟨2, "alice"⟩], [], []⟩
      [⟨1, 7, "st", some 4⟩] 9 4 FormData.login none 100 101 102 =
      ⟨.error .sessionConsumed,
       ⟨[⟨7, "iss", "openid", "cid", none, "m", none, 0⟩],
        [⟨1, 7, some 4, "st", none, "n", some "t", 0, some 3, some 5⟩],
        [⟨4, 7, some 2, "alice", 0⟩], [⟨2, "alice"⟩], [], []⟩⟩ :=
  link_post_consumed_guard _ _ 9 4 FormData.login none 100 101 102 1
    ⟨4, 7, some 2, "alice", 0⟩ ⟨1, 7, some 4, "st", none, "n", some "t", 0, some 3, some 5⟩
    (by decide) (by decide) (by decide) (by decide)

/-- C9: `end_session` succeeds exactly when its update affects exactly one
`user_sessions` row; any other affected-row count — including zero, when the
row is absent — yields an Inconsistency-class database error rather than
silent success. -/
theorem end_session_exactly_one_row
    (db : UpstreamDb) (now : Nat) (session : BrowserSession) :
    ((∃ db', end_session db now session = .ok db') ↔
      endSessionAffectedRows db session = 1) ∧
    (endSessionAffectedRows db session ≠ 1 →
      end_session db now session = .error .inconsistency) := by
  constructor
  · constructor
    · rintro ⟨db', hdb⟩
      by_cases h : endSessionAffectedRows db session = 1
      · exact h
      · simp [end_session, h] at hdb
    · intro h
      unfold end_session
      rw [if_pos h]
      exact ⟨_, rfl⟩
  · intro h
    simp [end_session, h]

/-- Witness for C9: on an empty table the update affects zero rows and
`end_session` signals Inconsistency; on a one-row table it succeeds. -/
theorem end_session_exactly_one_row_witness :
    end_session ⟨[], [], [], [], [], []⟩ 9 ⟨1, ⟨2, "alice"⟩⟩ =
      .error .inconsistency ∧
    (∃ db', end_session
      ⟨[], [], [], [], [⟨1, 2, 0, none⟩], []⟩ 9 ⟨1, ⟨2, "alice"⟩⟩ = .ok db') :=
  ⟨(end_session_exactly_one_row ⟨[], [], [], [], [], []⟩ 9 ⟨1, ⟨2, "alice"⟩⟩).2
     (by decide),
   (end_session_exactly_one_row ⟨[], [], [], [], [⟨1, 2, 0, none⟩], []⟩ 9
     ⟨1, ⟨2, "alice"⟩⟩).1.mpr (by decide)⟩

/-- C10: whenever the authorization-code exchange is performed with ID-token
verification data — as the callback handler always supplies — a successful
result guarantees that the verified ID token carries a `nonce` claim exactly
equal to the nonce of the stored validation data; a missing or different nonce
never yields success. -/
theorem authorization_code_nonce_enforced
    (env : OidcEnv) (code : String) (validation_data : AuthorizationValidationData)
    (verification_data : JwtVerificationData) (response : AccessTokenResponse)
    (maybe_id_token : Option IdToken)
    (h : access_token_with_authorization_code env code validation_data
      (some verification_data) = .ok (response, maybe_id_token)) :
    ∃ idt, maybe_id_token = some idt ∧
      lookupClaim idt.payload "nonce" = some validation_data.nonce := by
  unfold access_token_with_authorization_code at h
  split at h
  · exact Except.noConfusion h
  next token_response heqt =>
    split at h
    · next heqv => exact Option.noConfusion heqv
    next vd heqv =>
      split at h
      · exact Except.noConfusion h
      next raw heqr =>
        split at h
        · exact Except.noConfusion h
        next id_token heqver =>
          split at h
          · exact Except.noConfusion h
          next u1 heqat =>
            split at h
            · exact Except.noConfusion h
            next u2 heqch =>
              split at h
              · exact Except.noConfusion h
              next v heqn =>
                injection h with h'
                have hmid : some id_token = maybe_id_token := congrArg Prod.snd h'
                refine ⟨id_token, hmid.symm, ?_⟩
                unfold extractRequiredEq at heqn
                split at heqn
                · exact Except.noConfusion heqn
                next v' hlk =>
                  split at heqn
                  next hv => rw [hlk, hv]
                  · exact Except.noConfusion heqn

/-- Witness for C10: a concrete exchange whose ID token carries the matching
nonce. -/
theorem authorization_code_nonce_enforced_witness :
    ∃ idt, (some (⟨[("nonce", "nn"), ("sub", "alice")]⟩ : IdToken) = some idt ∧
      lookupClaim idt.payload "nonce" =
        some (⟨"st", "nn", "uri", none⟩ : AuthorizationValidationData).nonce) :=
  authorization_code_nonce_enforced
    ⟨.ok ⟨"acc", some "raw"⟩,
     fun _ _ => .ok ⟨[("nonce", "nn"), ("sub", "alice")]⟩,
     fun _ _ => "h"⟩
    "c" ⟨"st", "nn", "uri", none⟩ ⟨"iss", JsonWebSignatureAlg.rs256, "cid"⟩
    ⟨"acc", some "raw"⟩ (some ⟨[("nonce", "nn"), ("sub", "alice")]⟩) (by rfl)


end Mas
